import Mathlib

/-!
# DeepSpeedAIOTrampoline: backend loader and forwarding trampoline

A shallow embedding of `csrc/aio/py_lib/py_ds_aio_trampoline.cpp`.

The source only builds against `<dlfcn.h>` (it is included unconditionally and
the destructor calls `dlclose` unconditionally), so the embedding follows the
POSIX branches of the `#if` blocks.

* Pointers (`DeepSpeedAIOBase*`, `void*`, the `create_t` function pointer) are
  natural numbers, `0` being `nullptr`.
* The answers of the platform to one `load_device` call (`current_path()`,
  `dlopen`, `dlerror`, `dlsym`, the factory) are gathered in `Env`.
* The calls the trampoline makes on the platform and on the engine instance are
  recorded in a trace of `Event`s; what it prints on `std::cerr` is recorded in
  `stderr`.
* A call through a null pointer is undefined behaviour: `load_device` then has
  no result (`none`) and a forwarding method yields `Outcome.null_deref`.
* `std::filesystem` is modelled after the C++17 rules for the POSIX generic
  format, on lists of characters. `current_path()`, `delete` and the factory
  are taken to return normally; the `dlerror()` call that only clears the
  pending error after a successful `dlopen` is not recorded.
-/

namespace AioTrampoline

/-- A machine address; `0` is `nullptr`. -/
abbrev Ptr := Nat

/-! ## `std::filesystem::path` (POSIX generic format) -/

/-- Contents of a `std::string` or of a `std::filesystem::path`. -/
abbrev Str := List Char

/-- Method `path::is_absolute()`: on POSIX a path is absolute when it has a
root directory, that is when it starts with the separator. -/
def is_absolute (p : Str) : Bool :=
  match p with
  | [] => false
  | c :: _ => c == '/'

/-- Method `path::filename()`: the characters after the last separator. -/
def filename (p : Str) : Str :=
  (p.reverse.takeWhile (fun c => c != '/')).reverse

/-- Method `path::has_filename()`. -/
def has_filename (p : Str) : Bool :=
  !(filename p).isEmpty

/-- The `operator/` of `std::filesystem::path`: an absolute right operand
replaces the left one; otherwise a separator is inserted when the left operand
ends in a file name, and the right operand is appended. -/
def path_append (lhs p : Str) : Str :=
  if is_absolute p then p
  else if has_filename lhs then lhs ++ '/' :: p
  else lhs ++ p

/-- Method `path::extension()`: the part of the file name from its last period
on; empty when the file name is `.` or `..`, has no period, or has its only
period in first position. -/
def extension (p : Str) : Str :=
  let f := filename p
  if f == ['.'] || f == ['.', '.'] then []
  else
    let tail := (f.reverse.takeWhile (fun c => c != '.')).reverse
    if tail.length == f.length then []
    else if tail.length + 1 == f.length then []
    else '.' :: tail

/-- Method `path::replace_extension(replacement)`: the extension is removed, a
period is added when the replacement is not empty and does not start with one,
and the replacement is appended. -/
def replace_extension (p replacement : Str) : Str :=
  let stem := p.take (p.length - (extension p).length)
  let dot : Str :=
    match replacement with
    | [] => []
    | c :: _ => if c == '.' then [] else ['.']
  stem ++ dot ++ replacement

/-- Method `path::c_str()` as a C string sees it: the characters before the
first NUL. -/
def c_str (p : Str) : Str :=
  p.takeWhile (fun c => c != Char.ofNat 0)

/-- The directory `current_path() / "deepspeed" / "ops" / "plugins"`
(`so_directory` in `load_device`). -/
def so_directory (cwd : Str) : Str :=
  path_append (path_append (path_append cwd "deepspeed".toList) "ops".toList) "plugins".toList

/-- The path handed to `dlopen` (`lib_path` in `load_device`):
`so_directory / (device_type + "_op")` with its extension replaced by `.so`. -/
def lib_path (cwd device_type : Str) : Str :=
  replace_extension (path_append (so_directory cwd) (device_type ++ "_op".toList)) ".so".toList

/-! ## The platform and the trampoline state -/

/-- What the platform answers during one call of `load_device`. -/
structure Env where
  /-- Result of `std::filesystem::current_path()`. -/
  cwd : Str
  /-- Result of `dlopen(lib_path.c_str(), RTLD_LAZY)`; `0` when it fails. -/
  dlopen_result : Ptr
  /-- Text of `dlerror()` after a failed `dlopen`. -/
  dlopen_error : String
  /-- Result of `dlsym(handle, "create_device")`. -/
  dlsym_result : Ptr
  /-- Result of `dlerror()` after `dlsym`; `none` is `NULL`. -/
  dlsym_error : Option String
  /-- Result of the factory call `create_device()`; `0` is a null instance. -/
  create_device_result : Ptr

/-- A call made by the trampoline on the platform or on the engine instance. -/
inductive Event where
  /-- The statement `delete device`. -/
  | delete (device : Ptr)
  /-- The call `dlclose(handle)`. -/
  | dlclose (handle : Ptr)
  /-- The call `dlopen(path, RTLD_LAZY)` and its result. -/
  | dlopen (path : Str) (result : Ptr)
  /-- The call `dlsym(handle, "create_device")`. -/
  | dlsym (handle : Ptr)
  /-- The call `create_device()` and its result. -/
  | create_device (result : Ptr)
  deriving DecidableEq

/-- The two private members of `DeepSpeedAIOTrampoline`, with the record of what
the object has done so far. -/
structure Trampoline where
  /-- Member `DeepSpeedAIOBase* device`. -/
  device : Ptr
  /-- Member `void* handle`. -/
  handle : Ptr
  /-- Calls made so far, oldest first. -/
  trace : List Event
  /-- Lines written to `std::cerr` so far, oldest first. -/
  stderr : List String
  deriving DecidableEq

/-- First block of `load_device`: `if (device) { delete device; device = nullptr; }`. -/
def release_device (t : Trampoline) : Trampoline :=
  if t.device ≠ 0 then
    { t with device := 0, trace := t.trace ++ [Event.delete t.device] }
  else t

/-- Second block of `load_device`: `if (handle) { dlclose(handle); handle = nullptr; }`. -/
def release_handle (t : Trampoline) : Trampoline :=
  if t.handle ≠ 0 then
    { t with handle := 0, trace := t.trace ++ [Event.dlclose t.handle] }
  else t

/-- Method `DeepSpeedAIOTrampoline::load_device` (POSIX branches). The result is
`none` when the factory pointer is called although it is null. -/
def load_device (env : Env) (device_type : Str) (t : Trampoline) : Option Trampoline :=
  let t := release_device t
  let t := release_handle t
  let path := lib_path env.cwd device_type
  let t := { t with handle := env.dlopen_result,
                    trace := t.trace ++ [Event.dlopen (c_str path) env.dlopen_result] }
  if t.handle = 0 then
    some { t with stderr := t.stderr ++ ["Cannot open library: " ++ env.dlopen_error ++ "\n"] }
  else
    let t := { t with trace := t.trace ++ [Event.dlsym t.handle] }
    match env.dlsym_error with
    | some dlsym_error =>
      some { t with stderr := t.stderr ++ ["Cannot load symbol create_device: " ++ dlsym_error ++ "\n"],
                    trace := t.trace ++ [Event.dlclose t.handle],
                    handle := 0 }
    | none =>
      if env.dlsym_result = 0 then none
      else
        some { t with device := env.create_device_result,
                      trace := t.trace ++ [Event.create_device env.create_device_result] }

/-- The constructor: `device(nullptr), handle(nullptr)` and then
`load_device(device_type)`. -/
def construct (env : Env) (device_type : Str) : Option Trampoline :=
  load_device env device_type { device := 0, handle := 0, trace := [], stderr := [] }

/-- The destructor `~DeepSpeedAIOTrampoline`: the calls made over the whole life
of the object. -/
def destruct (t : Trampoline) : List Event :=
  let tr := if t.device ≠ 0 then t.trace ++ [Event.delete t.device] else t.trace
  if t.handle ≠ 0 then tr ++ [Event.dlclose t.handle] else tr

/-- A sequence of `load_device` calls, each with the answers of the platform at
that time. -/
def load_devices : List (Env × Str) → Trampoline → Option Trampoline
  | [], t => some t
  | (env, device_type) :: rest, t =>
    match load_device env device_type t with
    | none => none
    | some t1 => load_devices rest t1

/-- Construction followed by a sequence of `load_device` calls. -/
def session (env : Env) (device_type : Str) (calls : List (Env × Str)) : Option Trampoline :=
  match construct env device_type with
  | none => none
  | some t => load_devices calls t

/-- Construction, a sequence of `load_device` calls, and destruction: the calls
made over the whole life of the object. -/
def lifetime (env : Env) (device_type : Str) (calls : List (Env × Str)) : Option (List Event) :=
  match session env device_type calls with
  | none => none
  | some t => some (destruct t)

/-- The factory pointer is not called while null: when `dlerror()` reports no
error after `dlsym`, the address found is not null. -/
def Env.sane (env : Env) : Prop :=
  env.dlopen_result ≠ 0 → env.dlsym_error = none → env.dlsym_result ≠ 0

instance (env : Env) : Decidable env.sane := by
  unfold Env.sane; exact inferInstance

/-- The module cannot be opened: `dlopen` returns `NULL`. -/
def Env.open_fails (env : Env) : Prop :=
  env.dlopen_result = 0

/-- The module is opened and `dlerror()` reports an error after `dlsym`: the
factory symbol `create_device` cannot be resolved. -/
def Env.symbol_fails (env : Env) : Prop :=
  env.dlopen_result ≠ 0 ∧ env.dlsym_error ≠ none

/-- The module is opened, the factory is resolved and called, and it returns a
null instance. -/
def Env.instance_null (env : Env) : Prop :=
  env.dlopen_result ≠ 0 ∧ env.dlsym_error = none ∧ env.dlsym_result ≠ 0 ∧
    env.create_device_result = 0

/-- Opening the module, resolving `create_device` and the factory call all
succeed, and the instance is not null. -/
def Env.succeeds (env : Env) : Prop :=
  env.dlopen_result ≠ 0 ∧ env.dlsym_error = none ∧ env.dlsym_result ≠ 0 ∧
    env.create_device_result ≠ 0

instance (env : Env) : Decidable env.open_fails := by
  unfold Env.open_fails; exact inferInstance

instance (env : Env) : Decidable env.symbol_fails := by
  unfold Env.symbol_fails; exact inferInstance

instance (env : Env) : Decidable env.instance_null := by
  unfold Env.instance_null; exact inferInstance

instance (env : Env) : Decidable env.succeeds := by
  unfold Env.succeeds; exact inferInstance

/-! ## The forwarding methods -/

/-- A `torch::Tensor` argument, identified by the object passed. -/
abbrev Tensor := Nat

/-- A virtual call of `DeepSpeedAIOBase` with its arguments, in the order of the
declaration. -/
inductive Call where
  | aio_read (buffer : Tensor) (filename : Str) (validate : Bool)
  | aio_write (buffer : Tensor) (filename : Str) (validate : Bool)
  | deepspeed_memcpy (dest : Tensor) (src : Tensor)
  | get_block_size
  | get_queue_depth
  | get_single_submit
  | get_overlap_events
  | get_thread_count
  | read (buffer : Tensor) (filename : Str) (validate : Bool)
  | write (buffer : Tensor) (filename : Str) (validate : Bool)
  | pread (buffer : Tensor) (filename : Str) (validate : Bool) (async : Bool)
  | pwrite (buffer : Tensor) (filename : Str) (validate : Bool) (async : Bool)
  | sync_pread (buffer : Tensor) (filename : Str)
  | sync_pwrite (buffer : Tensor) (filename : Str)
  | async_pread (buffer : Tensor) (filename : Str)
  | async_pwrite (buffer : Tensor) (filename : Str)
  | new_cpu_locked_tensor (num_elem : Nat) (example_tensor : Tensor)
  | free_cpu_locked_tensor (tensor : Tensor)
  | wait
  deriving DecidableEq

/-- What the five getters of an engine instance return. -/
structure Engine where
  get_block_size : Int
  get_queue_depth : Int
  get_single_submit : Bool
  get_overlap_events : Bool
  get_thread_count : Int

/-- What a method of the trampoline does: it dereferences a null `device`
(undefined behaviour), or it makes the listed calls on engine instances and
returns a value. -/
inductive Outcome (α : Type) where
  | null_deref
  | returned (calls : List (Ptr × Call)) (value : α)
  deriving DecidableEq

/-- The expression `device->f(args)`: a null `device` is dereferenced, or `f` is
called once on the instance and its result is the value. -/
def deref {α : Type} (t : Trampoline) (c : Call) (result : Ptr → α) : Outcome α :=
  if t.device = 0 then Outcome.null_deref
  else Outcome.returned [(t.device, c)] (result t.device)

/-- Method `aio_read` of the trampoline: its body is `device->aio_read(...)` with the
arguments in the order received. -/
def aio_read (t : Trampoline) (buffer : Tensor) (filename : Str) (validate : Bool) :
    Outcome Unit :=
  deref t (Call.aio_read buffer filename validate) (fun _ => ())

/-- Method `aio_write` of the trampoline: its body is `device->aio_write(...)` with the
arguments in the order received. -/
def aio_write (t : Trampoline) (buffer : Tensor) (filename : Str) (validate : Bool) :
    Outcome Unit :=
  deref t (Call.aio_write buffer filename validate) (fun _ => ())

/-- Method `deepspeed_memcpy` of the trampoline: its body is `device->deepspeed_memcpy(...)` with the
arguments in the order received. -/
def deepspeed_memcpy (t : Trampoline) (dest : Tensor) (src : Tensor) : Outcome Unit :=
  deref t (Call.deepspeed_memcpy dest src) (fun _ => ())

/-- Method `get_block_size` of the trampoline: its body is `device->get_block_size(...)` with the
arguments in the order received. -/
def get_block_size (backend : Ptr → Engine) (t : Trampoline) : Outcome Int :=
  deref t Call.get_block_size (fun d => (backend d).get_block_size)

/-- Method `get_queue_depth` of the trampoline: its body is `device->get_queue_depth(...)` with the
arguments in the order received. -/
def get_queue_depth (backend : Ptr → Engine) (t : Trampoline) : Outcome Int :=
  deref t Call.get_queue_depth (fun d => (backend d).get_queue_depth)

/-- Method `get_single_submit` of the trampoline: its body is `device->get_single_submit(...)` with the
arguments in the order received. -/
def get_single_submit (backend : Ptr → Engine) (t : Trampoline) : Outcome Bool :=
  deref t Call.get_single_submit (fun d => (backend d).get_single_submit)

/-- Method `get_overlap_events` of the trampoline: its body is `device->get_overlap_events(...)` with the
arguments in the order received. -/
def get_overlap_events (backend : Ptr → Engine) (t : Trampoline) : Outcome Bool :=
  deref t Call.get_overlap_events (fun d => (backend d).get_overlap_events)

/-- Method `get_thread_count` of the trampoline: its body is `device->get_thread_count(...)` with the
arguments in the order received. -/
def get_thread_count (backend : Ptr → Engine) (t : Trampoline) : Outcome Int :=
  deref t Call.get_thread_count (fun d => (backend d).get_thread_count)

/-- Method `read` of the trampoline: its body is `device->read(...)` with the
arguments in the order received. -/
def read (t : Trampoline) (buffer : Tensor) (filename : Str) (validate : Bool) :
    Outcome Unit :=
  deref t (Call.read buffer filename validate) (fun _ => ())

/-- Method `write` of the trampoline: its body is `device->write(...)` with the
arguments in the order received. -/
def write (t : Trampoline) (buffer : Tensor) (filename : Str) (validate : Bool) :
    Outcome Unit :=
  deref t (Call.write buffer filename validate) (fun _ => ())

/-- Method `pread` of the trampoline: its body is `device->pread(...)` with the
arguments in the order received. -/
def pread (t : Trampoline) (buffer : Tensor) (filename : Str) (validate : Bool)
    (async : Bool) : Outcome Unit :=
  deref t (Call.pread buffer filename validate async) (fun _ => ())

/-- Method `pwrite` of the trampoline: its body is `device->pwrite(...)` with the
arguments in the order received. -/
def pwrite (t : Trampoline) (buffer : Tensor) (filename : Str) (validate : Bool)
    (async : Bool) : Outcome Unit :=
  deref t (Call.pwrite buffer filename validate async) (fun _ => ())

/-- Method `sync_pread` of the trampoline: its body is `device->sync_pread(...)` with the
arguments in the order received. -/
def sync_pread (t : Trampoline) (buffer : Tensor) (filename : Str) : Outcome Unit :=
  deref t (Call.sync_pread buffer filename) (fun _ => ())

/-- Method `sync_pwrite` of the trampoline: its body is `device->sync_pwrite(...)` with the
arguments in the order received. -/
def sync_pwrite (t : Trampoline) (buffer : Tensor) (filename : Str) : Outcome Unit :=
  deref t (Call.sync_pwrite buffer filename) (fun _ => ())

/-- Method `async_pread` of the trampoline: its body is `device->async_pread(...)` with the
arguments in the order received. -/
def async_pread (t : Trampoline) (buffer : Tensor) (filename : Str) : Outcome Unit :=
  deref t (Call.async_pread buffer filename) (fun _ => ())

/-- Method `async_pwrite` of the trampoline: its body is `device->async_pwrite(...)` with the
arguments in the order received. -/
def async_pwrite (t : Trampoline) (buffer : Tensor) (filename : Str) : Outcome Unit :=
  deref t (Call.async_pwrite buffer filename) (fun _ => ())

/-- Method `new_cpu_locked_tensor` of the trampoline: its body is `device->new_cpu_locked_tensor(...)` with the
arguments in the order received. -/
def new_cpu_locked_tensor (t : Trampoline) (num_elem : Nat) (example_tensor : Tensor) :
    Outcome Unit :=
  deref t (Call.new_cpu_locked_tensor num_elem example_tensor) (fun _ => ())

/-- Method `free_cpu_locked_tensor` of the trampoline: its body is `device->free_cpu_locked_tensor(...)` with the
arguments in the order received. -/
def free_cpu_locked_tensor (t : Trampoline) (tensor : Tensor) : Outcome Unit :=
  deref t (Call.free_cpu_locked_tensor tensor) (fun _ => ())

/-- Method `wait` of the trampoline: its body is `device->wait(...)` with the
arguments in the order received. -/
def wait (t : Trampoline) : Outcome Unit :=
  deref t Call.wait (fun _ => ())

/-- A value returned through the Python binding. -/
inductive Value where
  | void
  | int (v : Int)
  | bool (b : Bool)
  deriving DecidableEq

/-- The returned value of an outcome, seen as a `Value`. -/
def Outcome.as {α : Type} (f : α → Value) : Outcome α → Outcome Value
  | Outcome.null_deref => Outcome.null_deref
  | Outcome.returned calls v => Outcome.returned calls (f v)

/-- The bindings of `PYBIND11_MODULE`: the method of the trampoline that each
operation name is bound to, applied to the arguments given. -/
def invoke (backend : Ptr → Engine) (t : Trampoline) : Call → Outcome Value
  | Call.aio_read buffer filename validate =>
    (aio_read t buffer filename validate).as (fun _ => Value.void)
  | Call.aio_write buffer filename validate =>
    (aio_write t buffer filename validate).as (fun _ => Value.void)
  | Call.deepspeed_memcpy dest src => (deepspeed_memcpy t dest src).as (fun _ => Value.void)
  | Call.get_block_size => (get_block_size backend t).as Value.int
  | Call.get_queue_depth => (get_queue_depth backend t).as Value.int
  | Call.get_single_submit => (get_single_submit backend t).as Value.bool
  | Call.get_overlap_events => (get_overlap_events backend t).as Value.bool
  | Call.get_thread_count => (get_thread_count backend t).as Value.int
  | Call.read buffer filename validate =>
    (read t buffer filename validate).as (fun _ => Value.void)
  | Call.write buffer filename validate =>
    (write t buffer filename validate).as (fun _ => Value.void)
  | Call.pread buffer filename validate async =>
    (pread t buffer filename validate async).as (fun _ => Value.void)
  | Call.pwrite buffer filename validate async =>
    (pwrite t buffer filename validate async).as (fun _ => Value.void)
  | Call.sync_pread buffer filename => (sync_pread t buffer filename).as (fun _ => Value.void)
  | Call.sync_pwrite buffer filename => (sync_pwrite t buffer filename).as (fun _ => Value.void)
  | Call.async_pread buffer filename => (async_pread t buffer filename).as (fun _ => Value.void)
  | Call.async_pwrite buffer filename =>
    (async_pwrite t buffer filename).as (fun _ => Value.void)
  | Call.new_cpu_locked_tensor num_elem example_tensor =>
    (new_cpu_locked_tensor t num_elem example_tensor).as (fun _ => Value.void)
  | Call.free_cpu_locked_tensor tensor =>
    (free_cpu_locked_tensor t tensor).as (fun _ => Value.void)
  | Call.wait => (wait t).as (fun _ => Value.void)

/-- What an engine instance itself returns for a call: the value of its getter,
and nothing for the other operations. -/
def Engine.reply (e : Engine) : Call → Value
  | Call.get_block_size => Value.int e.get_block_size
  | Call.get_queue_depth => Value.int e.get_queue_depth
  | Call.get_single_submit => Value.bool e.get_single_submit
  | Call.get_overlap_events => Value.bool e.get_overlap_events
  | Call.get_thread_count => Value.int e.get_thread_count
  | _ => Value.void

/-! ## The module path named by the specification -/

/-- The module path in the words of the specification: the plugins directory
under the working directory, a separator, and the file name made of the device
type followed by `_op` and the extension `.so`. -/
def spec_module_path (cwd device_type : Str) : Str :=
  so_directory cwd ++ "/".toList ++ (device_type ++ "_op".toList ++ ".so".toList)

/-! ## Accounting of the native resources -/

/-- The native resources alive at a point of a trace: the module handle that is
open and the engine instance that exists, if any. -/
structure Live where
  handle : Option Ptr
  device : Option Ptr
  deriving DecidableEq

/-- The effect of one call on the resources alive; `none` when the call breaks
the ownership discipline. A successful `dlopen` needs that no handle is open; a
factory call that returns an instance needs an open handle and no instance
alive; `delete` needs that very instance alive; `dlclose` needs that very handle
open and no instance alive; `dlsym` needs that very handle open. A failed
`dlopen` and a factory call that returns null create nothing. -/
def Live.step (l : Live) : Event → Option Live
  | Event.dlopen _ result =>
    if result = 0 then some l
    else match l.handle with
      | none => some { l with handle := some result }
      | some _ => none
  | Event.dlsym handle => if l.handle = some handle then some l else none
  | Event.create_device result =>
    if result = 0 then some l
    else match l.handle, l.device with
      | some _, none => some { l with device := some result }
      | _, _ => none
  | Event.delete device =>
    if l.device = some device then some { l with device := none } else none
  | Event.dlclose handle =>
    if l.handle = some handle ∧ l.device = none then some { l with handle := none } else none

/-- The resources alive after a trace, when every call of it keeps the
discipline. -/
def Live.run : Live → List Event → Option Live
  | l, [] => some l
  | l, e :: es =>
    match l.step e with
    | none => none
    | some l1 => Live.run l1 es

/-- The call is a `dlopen` that returned `handle`. -/
def Event.opens (handle : Ptr) : Event → Bool
  | Event.dlopen _ result => result == handle
  | _ => false

/-- The call is `dlclose(handle)`. -/
def Event.closes (handle : Ptr) : Event → Bool
  | Event.dlclose h => h == handle
  | _ => false

/-- The call is a factory call that returned `device`. -/
def Event.creates (device : Ptr) : Event → Bool
  | Event.create_device result => result == device
  | _ => false

/-- The call is `delete device`. -/
def Event.deletes (device : Ptr) : Event → Bool
  | Event.delete d => d == device
  | _ => false

/-- The platform hands out `handle` during the call: its `dlopen` returns it. -/
def Env.opens (handle : Ptr) (env : Env) : Bool :=
  env.dlopen_result == handle

/-- The factory is called during the call and returns `device`: the module is
opened, `dlerror()` reports no error after `dlsym`, and `create_device()`
returns `device`. -/
def Env.creates (device : Ptr) (env : Env) : Bool :=
  env.dlopen_result != 0 && env.dlsym_error.isNone && env.create_device_result == device

/-- The calls the destructor makes on a trampoline: `delete` of the instance it
holds, then `dlclose` of the handle it holds. -/
def Trampoline.last_calls (t : Trampoline) : List Event :=
  (if t.device ≠ 0 then [Event.delete t.device] else []) ++
    (if t.handle ≠ 0 then [Event.dlclose t.handle] else [])

/-- The resources the trampoline owns according to its two members. -/
def Trampoline.live (t : Trampoline) : Live :=
  { handle := if t.handle = 0 then none else some t.handle,
    device := if t.device = 0 then none else some t.device }

/-- The trace of the trampoline keeps the discipline and leaves alive exactly
what the two members hold; an instance is held only with a handle. -/
def Trampoline.tracked (t : Trampoline) : Prop :=
  Live.run ⟨none, none⟩ t.trace = some t.live ∧ (t.device ≠ 0 → t.handle ≠ 0)

/-- An instance held by the trampoline comes from the handle it holds: the last
calls of the trace are the `dlopen` that returned the handle, the `dlsym` on it
and the factory call that returned the instance. -/
def Trampoline.provenance (t : Trampoline) : Prop :=
  t.device ≠ 0 → t.handle ≠ 0 ∧
    ∃ pre path, t.trace = pre ++ [Event.dlopen path t.handle, Event.dlsym t.handle,
      Event.create_device t.device]

/-! ## Single calls of `load_device` -/

theorem load_device_open_fails (env : Env) (device_type : Str) (t : Trampoline)
    (h : env.dlopen_result = 0) :
    load_device env device_type t = some
      { device := 0, handle := 0,
        trace := (release_handle (release_device t)).trace ++
          [Event.dlopen (c_str (lib_path env.cwd device_type)) 0],
        stderr := t.stderr ++ ["Cannot open library: " ++ env.dlopen_error ++ "\n"] } := by
  unfold load_device release_handle release_device
  by_cases hd : t.device = 0 <;> by_cases hh : t.handle = 0 <;> simp [h, hd, hh]

theorem load_device_symbol_fails (env : Env) (device_type : Str) (t : Trampoline)
    (h : env.dlopen_result ≠ 0) (err : String) (he : env.dlsym_error = some err) :
    load_device env device_type t = some
      { device := 0, handle := 0,
        trace := (release_handle (release_device t)).trace ++
          [Event.dlopen (c_str (lib_path env.cwd device_type)) env.dlopen_result,
           Event.dlsym env.dlopen_result, Event.dlclose env.dlopen_result],
        stderr := t.stderr ++ ["Cannot load symbol create_device: " ++ err ++ "\n"] } := by
  unfold load_device release_handle release_device
  by_cases hd : t.device = 0 <;> by_cases hh : t.handle = 0 <;> simp [h, hd, hh, he]

theorem load_device_factory_called (env : Env) (device_type : Str) (t : Trampoline)
    (h : env.dlopen_result ≠ 0) (he : env.dlsym_error = none) (hp : env.dlsym_result ≠ 0) :
    load_device env device_type t = some
      { device := env.create_device_result, handle := env.dlopen_result,
        trace := (release_handle (release_device t)).trace ++
          [Event.dlopen (c_str (lib_path env.cwd device_type)) env.dlopen_result,
           Event.dlsym env.dlopen_result, Event.create_device env.create_device_result],
        stderr := t.stderr } := by
  unfold load_device release_handle release_device
  by_cases hd : t.device = 0 <;> by_cases hh : t.handle = 0 <;> simp [h, hd, hh, he, hp]

theorem release_trace_loaded (t : Trampoline) (hd : t.device ≠ 0) (hh : t.handle ≠ 0) :
    (release_handle (release_device t)).trace =
      t.trace ++ [Event.delete t.device, Event.dlclose t.handle] := by
  unfold release_handle release_device
  simp [hd, hh]

/-- C1, as stated, fails: when the factory returns a null instance, `load_device`
returns with the opened module handle still stored in the trampoline. -/
theorem load_device_null_instance_keeps_handle :
    ¬ (∀ (env : Env) (device_type : Str) (t r : Trampoline),
        env.open_fails ∨ env.symbol_fails ∨ env.instance_null →
        load_device env device_type t = some r → r.device = 0 ∧ r.handle = 0) := by
  intro hall
  have hr := load_device_factory_called ⟨[], 5, "", 7, none, 0⟩ "nvme".toList ⟨0, 0, [], []⟩
    (by decide) rfl (by decide)
  have h := hall ⟨[], 5, "", 7, none, 0⟩ "nvme".toList ⟨0, 0, [], []⟩ _
    (Or.inr (Or.inr (by decide))) hr
  exact absurd h.2 (by decide)

/-- C1 (amended): whichever of the three steps of `load_device` fails, the
trampoline holds no engine instance afterwards. When the module cannot be opened
or `create_device` cannot be resolved, it holds no module handle either. When
the factory returns a null instance, the handle of the module just opened stays
in the trampoline. -/
theorem load_device_failure_state (env : Env) (device_type : Str) (t : Trampoline)
    (hfail : env.open_fails ∨ env.symbol_fails ∨ env.instance_null) :
    ∃ r, load_device env device_type t = some r ∧ r.device = 0 ∧
      (env.open_fails ∨ env.symbol_fails → r.handle = 0) ∧
      (env.instance_null → r.handle = env.dlopen_result ∧ r.handle ≠ 0) := by
  rcases hfail with ho | hs | hn
  · refine ⟨_, load_device_open_fails env device_type t ho, rfl, fun _ => rfl, ?_⟩
    intro hn
    exact absurd ho hn.1
  · obtain ⟨hopen, herr⟩ := hs
    cases he : env.dlsym_error with
    | none => exact absurd he herr
    | some err =>
      refine ⟨_, load_device_symbol_fails env device_type t hopen err he, rfl, fun _ => rfl, ?_⟩
      intro hn
      rw [hn.2.1] at he
      cases he
  · obtain ⟨hopen, herr, hsym, hnull⟩ := hn
    refine ⟨_, load_device_factory_called env device_type t hopen herr hsym, hnull, ?_, ?_⟩
    · rintro (ho | hs)
      · exact absurd ho hopen
      · exact absurd herr hs.2
    · intro _
      exact ⟨rfl, hopen⟩

/-- Witness of `load_device_failure_state`: a reload of a loaded trampoline whose
new module lacks the factory symbol. -/
theorem load_device_failure_state_witness :
    (Env.open_fails ⟨[], 5, "", 0, some "undefined symbol", 0⟩ ∨
      Env.symbol_fails ⟨[], 5, "", 0, some "undefined symbol", 0⟩ ∨
      Env.instance_null ⟨[], 5, "", 0, some "undefined symbol", 0⟩) ∧
    ∃ r, load_device ⟨[], 5, "", 0, some "undefined symbol", 0⟩ "gds".toList ⟨3, 4, [], []⟩
        = some r ∧ r.device = 0 ∧
      (Env.open_fails ⟨[], 5, "", 0, some "undefined symbol", 0⟩ ∨
        Env.symbol_fails ⟨[], 5, "", 0, some "undefined symbol", 0⟩ → r.handle = 0) ∧
      (Env.instance_null ⟨[], 5, "", 0, some "undefined symbol", 0⟩ →
        r.handle = Env.dlopen_result ⟨[], 5, "", 0, some "undefined symbol", 0⟩ ∧
          r.handle ≠ 0) :=
  ⟨Or.inr (Or.inl (by decide)),
   load_device_failure_state ⟨[], 5, "", 0, some "undefined symbol", 0⟩ "gds".toList
     ⟨3, 4, [], []⟩ (Or.inr (Or.inl (by decide)))⟩

/-- C4: on a trampoline loaded with instance `t.device` from module `t.handle`,
the calls made by `load_device` start with `delete` of that instance, then
`dlclose` of that handle, then the `dlopen` of the new module; what follows
(`dlsym`, and `dlclose` of the new handle or the factory call) concerns the new
module only. The old instance is deleted exactly once, and the old handle is
closed exactly once unless the new module is closed again under the same
address. -/
theorem load_device_teardown_first (env : Env) (device_type : Str) (t : Trampoline)
    (hd : t.device ≠ 0) (hh : t.handle ≠ 0) (hs : env.sane) :
    ∃ r rest, load_device env device_type t = some r ∧
      r.trace = t.trace ++ Event.delete t.device :: Event.dlclose t.handle ::
        Event.dlopen (c_str (lib_path env.cwd device_type)) env.dlopen_result :: rest ∧
      (rest = [] ∨
        rest = [Event.dlsym env.dlopen_result, Event.dlclose env.dlopen_result] ∨
        rest = [Event.dlsym env.dlopen_result,
                Event.create_device env.create_device_result]) ∧
      (Event.delete t.device :: Event.dlclose t.handle ::
        Event.dlopen (c_str (lib_path env.cwd device_type)) env.dlopen_result :: rest).count
          (Event.delete t.device) = 1 ∧
      (env.dlopen_result ≠ t.handle →
        (Event.delete t.device :: Event.dlclose t.handle ::
          Event.dlopen (c_str (lib_path env.cwd device_type)) env.dlopen_result :: rest).count
            (Event.dlclose t.handle) = 1) := by
  by_cases ho : env.dlopen_result = 0
  · refine ⟨_, [], load_device_open_fails env device_type t ho, ?_, Or.inl rfl, ?_, ?_⟩
    · simp [release_trace_loaded t hd hh, ho]
    · simp [List.count_cons]
    · intro _
      simp [List.count_cons]
  · cases he : env.dlsym_error with
    | some err =>
      refine ⟨_, _, load_device_symbol_fails env device_type t ho err he, ?_,
        Or.inr (Or.inl rfl), ?_, ?_⟩
      · simp [release_trace_loaded t hd hh]
      · simp [List.count_cons]
      · intro hne
        simp [List.count_cons, hne]
    | none =>
      refine ⟨_, _, load_device_factory_called env device_type t ho he (hs ho he), ?_,
        Or.inr (Or.inr rfl), ?_, ?_⟩
      · simp [release_trace_loaded t hd hh]
      · simp [List.count_cons]
      · intro _
        simp [List.count_cons]

/-- Witness of `load_device_teardown_first`: a successful reload. -/
theorem load_device_teardown_first_witness :
    ((3 : Ptr) ≠ 0 ∧ (4 : Ptr) ≠ 0 ∧ Env.sane ⟨"/w".toList, 5, "", 7, none, 9⟩) ∧
    ∃ r rest, load_device ⟨"/w".toList, 5, "", 7, none, 9⟩ "gds".toList ⟨3, 4, [], []⟩ = some r ∧
      r.trace = [] ++ Event.delete 3 :: Event.dlclose 4 ::
        Event.dlopen (c_str (lib_path "/w".toList "gds".toList)) 5 :: rest ∧
      (rest = [] ∨
        rest = [Event.dlsym 5, Event.dlclose 5] ∨
        rest = [Event.dlsym 5, Event.create_device 9]) ∧
      (Event.delete 3 :: Event.dlclose 4 ::
        Event.dlopen (c_str (lib_path "/w".toList "gds".toList)) 5 :: rest).count
          (Event.delete 3) = 1 ∧
      ((5 : Ptr) ≠ 4 →
        (Event.delete 3 :: Event.dlclose 4 ::
          Event.dlopen (c_str (lib_path "/w".toList "gds".toList)) 5 :: rest).count
            (Event.dlclose 4) = 1) :=
  ⟨⟨by decide, by decide, by decide⟩,
   load_device_teardown_first ⟨"/w".toList, 5, "", 7, none, 9⟩ "gds".toList ⟨3, 4, [], []⟩
     (by decide) (by decide) (by decide)⟩

/-- C7: from every state of the trampoline, in particular the state left by a
failed construction or by a failed `load_device` of any kind, a `load_device`
whose three steps succeed with a non-null instance returns and leaves the
trampoline Loaded: it holds exactly the handle just opened and the instance the
factory returned, both non-null. -/
theorem load_device_recovers (env : Env) (device_type : Str) (t : Trampoline)
    (hok : env.succeeds) :
    ∃ r, load_device env device_type t = some r ∧
      r.device = env.create_device_result ∧ r.handle = env.dlopen_result ∧
      r.device ≠ 0 ∧ r.handle ≠ 0 := by
  obtain ⟨hopen, herr, hsym, hinst⟩ := hok
  exact ⟨_, load_device_factory_called env device_type t hopen herr hsym,
    rfl, rfl, hinst, hopen⟩

/-- Witness of `load_device_recovers`: the state is the one left by a construction
whose module could not be opened. -/
theorem load_device_recovers_witness :
    (construct ⟨[], 0, "no such file", 0, none, 0⟩ "gds".toList =
        some ⟨0, 0, [Event.dlopen "deepspeed/ops/plugins/gds_op.so".toList 0],
          ["Cannot open library: no such file\n"]⟩ ∧
      Env.succeeds ⟨[], 5, "", 7, none, 9⟩) ∧
    ∃ r, load_device ⟨[], 5, "", 7, none, 9⟩ "nvme".toList
        ⟨0, 0, [Event.dlopen "deepspeed/ops/plugins/gds_op.so".toList 0],
          ["Cannot open library: no such file\n"]⟩ = some r ∧
      r.device = Env.create_device_result ⟨[], 5, "", 7, none, 9⟩ ∧
      r.handle = Env.dlopen_result ⟨[], 5, "", 7, none, 9⟩ ∧
      r.device ≠ 0 ∧ r.handle ≠ 0 :=
  ⟨⟨by decide, by decide⟩,
   load_device_recovers ⟨[], 5, "", 7, none, 9⟩ "nvme".toList
     ⟨0, 0, [Event.dlopen "deepspeed/ops/plugins/gds_op.so".toList 0],
       ["Cannot open library: no such file\n"]⟩ (by decide)⟩

/-- C9: on a trampoline loaded with instance `t.device` from module `t.handle`,
a `load_device` whose module cannot be opened or lacks `create_device` returns
with the old instance deleted, then the old handle closed, and the trampoline
Unloaded: no instance and no handle. -/
theorem reload_failure_drops_old_backend (env : Env) (device_type : Str) (t : Trampoline)
    (hd : t.device ≠ 0) (hh : t.handle ≠ 0) (hfail : env.open_fails ∨ env.symbol_fails) :
    ∃ r rest, load_device env device_type t = some r ∧ r.device = 0 ∧ r.handle = 0 ∧
      r.trace = t.trace ++ Event.delete t.device :: Event.dlclose t.handle :: rest := by
  rcases hfail with ho | ⟨hopen, herr⟩
  · refine ⟨_, [Event.dlopen (c_str (lib_path env.cwd device_type)) 0],
      load_device_open_fails env device_type t ho, rfl, rfl, ?_⟩
    simp only [release_trace_loaded t hd hh, List.append_assoc, List.cons_append,
      List.nil_append]
  · cases he : env.dlsym_error with
    | none => exact absurd he herr
    | some err =>
      refine ⟨_, [Event.dlopen (c_str (lib_path env.cwd device_type)) env.dlopen_result,
          Event.dlsym env.dlopen_result, Event.dlclose env.dlopen_result],
        load_device_symbol_fails env device_type t hopen err he, rfl, rfl, ?_⟩
      simp only [release_trace_loaded t hd hh, List.append_assoc, List.cons_append,
        List.nil_append]

/-- Witness of `reload_failure_drops_old_backend`: the module of the new device
type cannot be opened. -/
theorem reload_failure_drops_old_backend_witness :
    ((3 : Ptr) ≠ 0 ∧ (4 : Ptr) ≠ 0 ∧
      (Env.open_fails ⟨[], 0, "no such file", 0, none, 0⟩ ∨
        Env.symbol_fails ⟨[], 0, "no such file", 0, none, 0⟩)) ∧
    ∃ r rest, load_device ⟨[], 0, "no such file", 0, none, 0⟩ "gds".toList ⟨3, 4, [], []⟩
        = some r ∧ r.device = 0 ∧ r.handle = 0 ∧
      r.trace = [] ++ Event.delete 3 :: Event.dlclose 4 :: rest :=
  ⟨⟨by decide, by decide, Or.inl (by decide)⟩,
   reload_failure_drops_old_backend ⟨[], 0, "no such file", 0, none, 0⟩ "gds".toList
     ⟨3, 4, [], []⟩ (by decide) (by decide) (Or.inl (by decide))⟩

/-! ## Diagnostics -/

/-- C2, as stated, fails: on the trampoline left by a construction whose module
could not be opened, `aio_read` dereferences the null `device`. -/
theorem unloaded_call_dereferences_null :
    ¬ (∀ (backend : Ptr → Engine) (t : Trampoline) (c : Call),
        t.device = 0 → invoke backend t c ≠ Outcome.null_deref) := by
  intro hall
  exact hall (fun _ => ⟨0, 0, false, false, 0⟩)
    ⟨0, 0, [Event.dlopen "deepspeed/ops/plugins/gds_op.so".toList 0],
      ["Cannot open library: no such file\n"]⟩
    (Call.aio_read 1 "f".toList true) rfl rfl

/-- C2 (amended): the forwarding methods make no check of `device`. For every
operation and every argument list, the call dereferences a null pointer exactly
when the trampoline holds no engine instance; no error is produced in that
case. A trampoline that holds an instance never dereferences a null pointer. -/
theorem invoke_null_deref_iff (backend : Ptr → Engine) (t : Trampoline) (c : Call) :
    invoke backend t c = Outcome.null_deref ↔ t.device = 0 := by
  by_cases h : t.device = 0 <;>
  cases c <;>
  simp [invoke, aio_read, aio_write, deepspeed_memcpy, get_block_size, get_queue_depth,
    get_single_submit, get_overlap_events, get_thread_count, read, write, pread, pwrite,
    sync_pread, sync_pwrite, async_pread, async_pwrite, new_cpu_locked_tensor,
    free_cpu_locked_tensor, wait, deref, Outcome.as, h]

/-- C5: on a trampoline that holds the engine instance `t.device`, every
operation makes exactly one call on that instance, the operation of the same
name with the same arguments in the same order, and returns what the instance
returns: for the five getters the value of the getter of the instance. -/
theorem invoke_forwards (backend : Ptr → Engine) (t : Trampoline) (c : Call)
    (h : t.device ≠ 0) :
    invoke backend t c = Outcome.returned [(t.device, c)] ((backend t.device).reply c) := by
  cases c <;>
  simp [invoke, aio_read, aio_write, deepspeed_memcpy, get_block_size, get_queue_depth,
    get_single_submit, get_overlap_events, get_thread_count, read, write, pread, pwrite,
    sync_pread, sync_pwrite, async_pread, async_pwrite, new_cpu_locked_tensor,
    free_cpu_locked_tensor, wait, deref, Outcome.as, Engine.reply, h]

/-- Witness of `invoke_forwards`: a `pread` on a loaded trampoline. -/
theorem invoke_forwards_witness :
    (9 : Ptr) ≠ 0 ∧
    invoke (fun _ => ⟨4096, 32, false, true, 8⟩) ⟨9, 5, [], []⟩
        (Call.pread 1 "/data/swap.bin".toList true false) =
      Outcome.returned [(9, Call.pread 1 "/data/swap.bin".toList true false)]
        (Engine.reply ⟨4096, 32, false, true, 8⟩
          (Call.pread 1 "/data/swap.bin".toList true false)) :=
  ⟨by decide,
   invoke_forwards (fun _ => ⟨4096, 32, false, true, 8⟩) ⟨9, 5, [], []⟩
     (Call.pread 1 "/data/swap.bin".toList true false) (by decide)⟩

/-! ## The module path -/

theorem filename_append_sep (a x : Str) : filename (a ++ '/' :: x) = filename x := by
  unfold filename
  congr 1
  rw [List.reverse_append, List.reverse_cons, List.append_assoc]
  simp only [List.singleton_append]
  induction x.reverse with
  | nil => simp [List.takeWhile_cons]
  | cons y ys ih =>
    simp only [List.cons_append, List.takeWhile_cons]
    split
    · rw [ih]
    · rfl

theorem extension_append_sep (a x : Str) : extension (a ++ '/' :: x) = extension x := by
  unfold extension
  rw [filename_append_sep]

theorem has_filename_append (a b : Str) (hb : has_filename b = true) :
    has_filename (a ++ b) = true := by
  unfold has_filename filename at *
  rw [List.reverse_append]
  cases hr : b.reverse with
  | nil => simp [hr] at hb
  | cons y ys =>
    rw [hr] at hb
    simp only [List.cons_append, List.takeWhile_cons] at hb ⊢
    split
    · simp
    · rename_i hy
      simp [hy] at hb

theorem path_append_relative (a b : Str) (ha : has_filename a = true)
    (hb : is_absolute b = false) : path_append a b = a ++ '/' :: b := by
  unfold path_append
  simp [ha, hb]

theorem so_directory_eq (cwd : Str) (h : has_filename cwd = true) :
    so_directory cwd = cwd ++ "/deepspeed/ops/plugins".toList := by
  unfold so_directory
  have h1 : path_append cwd "deepspeed".toList = cwd ++ "/deepspeed".toList :=
    path_append_relative cwd _ h (by decide)
  have h2 : path_append (cwd ++ "/deepspeed".toList) "ops".toList =
      cwd ++ "/deepspeed/ops".toList := by
    rw [path_append_relative _ _ (has_filename_append cwd _ (by decide)) (by decide)]
    simp
  have h3 : path_append (cwd ++ "/deepspeed/ops".toList) "plugins".toList =
      cwd ++ "/deepspeed/ops/plugins".toList := by
    rw [path_append_relative _ _ (has_filename_append cwd _ (by decide)) (by decide)]
    simp
  rw [h1, h2, h3]

theorem has_filename_path_append (a b : Str) (hb : has_filename b = true) :
    has_filename (path_append a b) = true := by
  unfold path_append
  split
  · exact hb
  · split
    · have hsep : has_filename ('/' :: b) = true := by
        have hf := filename_append_sep [] b
        unfold has_filename at hb ⊢
        rw [List.nil_append] at hf
        rw [hf]
        exact hb
      exact has_filename_append a ('/' :: b) hsep
    · exact has_filename_append a b hb

theorem has_filename_so_directory (cwd : Str) : has_filename (so_directory cwd) = true := by
  unfold so_directory
  exact has_filename_path_append _ _ (by decide)

theorem mem_path_append (c : Char) (a b : Str) (h : c ∈ path_append a b) :
    c ∈ a ∨ c = '/' ∨ c ∈ b := by
  unfold path_append at h
  split at h
  · exact Or.inr (Or.inr h)
  · split at h
    · simp only [List.mem_append, List.mem_cons] at h
      tauto
    · simp only [List.mem_append] at h
      tauto

theorem nul_not_mem_so_directory (cwd : Str) (h : Char.ofNat 0 ∉ cwd) :
    Char.ofNat 0 ∉ so_directory cwd := by
  intro hm
  unfold so_directory at hm
  rcases mem_path_append _ _ _ hm with h3 | h3 | h3
  · rcases mem_path_append _ _ _ h3 with h2 | h2 | h2
    · rcases mem_path_append _ _ _ h2 with h1 | h1 | h1
      · exact h h1
      · exact absurd h1 (by decide)
      · exact absurd h1 (by decide)
    · exact absurd h2 (by decide)
    · exact absurd h2 (by decide)
  · exact absurd h3 (by decide)
  · exact absurd h3 (by decide)

theorem c_str_of_no_nul (p : Str) (h : Char.ofNat 0 ∉ p) : c_str p = p := by
  unfold c_str
  rw [List.takeWhile_eq_self_iff]
  intro x hx
  simp only [bne_iff_ne, ne_eq]
  intro hx0
  exact h (hx0 ▸ hx)

theorem replace_extension_so (p : Str) (h : extension p = []) :
    replace_extension p ".so".toList = p ++ ".so".toList := by
  unfold replace_extension
  simp [h]

theorem lib_path_plain (cwd device_type : Str) (hrel : is_absolute device_type = false)
    (hext : extension (device_type ++ "_op".toList) = []) :
    lib_path cwd device_type = spec_module_path cwd device_type := by
  unfold lib_path spec_module_path
  have habs : is_absolute (device_type ++ "_op".toList) = false := by
    cases device_type with
    | nil => decide
    | cons c cs => simpa [is_absolute] using hrel
  rw [path_append_relative _ _ (has_filename_so_directory cwd) habs,
    replace_extension_so _ (by rw [extension_append_sep]; exact hext)]
  simp

theorem load_device_trace (env : Env) (device_type : Str) (t : Trampoline) (hs : env.sane) :
    ∃ r rest, load_device env device_type t = some r ∧
      r.trace = (release_handle (release_device t)).trace ++
        Event.dlopen (c_str (lib_path env.cwd device_type)) env.dlopen_result :: rest ∧
      (rest = [] ∨
        rest = [Event.dlsym env.dlopen_result, Event.dlclose env.dlopen_result] ∨
        rest = [Event.dlsym env.dlopen_result,
                Event.create_device env.create_device_result]) := by
  by_cases ho : env.dlopen_result = 0
  · refine ⟨_, [], load_device_open_fails env device_type t ho, ?_, Or.inl rfl⟩
    simp [ho]
  · cases he : env.dlsym_error with
    | some err =>
      exact ⟨_, _, load_device_symbol_fails env device_type t ho err he, rfl,
        Or.inr (Or.inl rfl)⟩
    | none =>
      exact ⟨_, _, load_device_factory_called env device_type t ho he (hs ho he), rfl,
        Or.inr (Or.inr rfl)⟩

/-- C3, as stated, fails: an absolute device type replaces the plugins directory,
and a period in the device type makes `replace_extension` cut the file name at
its last period. -/
theorem lib_path_not_always_under_plugins :
    c_str (lib_path "/home/u".toList "/tmp/evil".toList) = "/tmp/evil_op.so".toList ∧
    c_str (lib_path "/home/u".toList "nvme.v2".toList) =
      "/home/u/deepspeed/ops/plugins/nvme.so".toList ∧
    ¬ (∀ cwd device_type : Str,
        c_str (lib_path cwd device_type) = spec_module_path cwd device_type) := by
  refine ⟨by decide, by decide, ?_⟩
  intro hall
  exact absurd (hall "/home/u".toList "/tmp/evil".toList) (by decide)

/-- C3 (amended): for every working directory and every device type that is not
an absolute path, contains no NUL character, and for which `<device_type>_op`
has no extension in the sense of `std::filesystem` (its last component has no
period after the first character), the path that `load_device` hands to `dlopen`
is the plugins directory under the working directory, a separator, and
`<device_type>_op.so`; when the working directory does not end in a separator
this is the text `cwd/deepspeed/ops/plugins/<device_type>_op.so`. The path is
computed from the working directory at the time of the call and the device
type only, and it is the only path the call opens. -/
theorem load_device_opens_spec_path (env : Env) (device_type : Str) (t : Trampoline)
    (hs : env.sane) (hcwd : Char.ofNat 0 ∉ env.cwd) (hnul : Char.ofNat 0 ∉ device_type)
    (hrel : is_absolute device_type = false)
    (hext : extension (device_type ++ "_op".toList) = []) :
    c_str (lib_path env.cwd device_type) = spec_module_path env.cwd device_type ∧
    (has_filename env.cwd = true →
      spec_module_path env.cwd device_type =
        env.cwd ++ "/deepspeed/ops/plugins/".toList ++ device_type ++ "_op.so".toList) ∧
    ∃ r rest, load_device env device_type t = some r ∧
      r.trace = (release_handle (release_device t)).trace ++
        Event.dlopen (spec_module_path env.cwd device_type) env.dlopen_result :: rest ∧
      ∀ path result, Event.dlopen path result ∉ rest := by
  have hpath : c_str (lib_path env.cwd device_type) = spec_module_path env.cwd device_type := by
    rw [lib_path_plain env.cwd device_type hrel hext]
    apply c_str_of_no_nul
    unfold spec_module_path
    intro hm
    simp only [List.mem_append] at hm
    rcases hm with (h1 | h1) | (h1 | h1) | h1
    · exact nul_not_mem_so_directory env.cwd hcwd h1
    · exact absurd h1 (by decide)
    · exact hnul h1
    · exact absurd h1 (by decide)
    · exact absurd h1 (by decide)
  refine ⟨hpath, ?_, ?_⟩
  · intro hf
    unfold spec_module_path
    rw [so_directory_eq env.cwd hf]
    simp
  · obtain ⟨r, rest, hr, htrace, hrest⟩ := load_device_trace env device_type t hs
    refine ⟨r, rest, hr, ?_, ?_⟩
    · rw [htrace, hpath]
    · intro path result hm
      rcases hrest with h | h | h <;> simp [h] at hm

/-- Witness of `load_device_opens_spec_path`: the device type `nvme` in the
working directory `/home/u`. -/
theorem load_device_opens_spec_path_witness :
    (Env.sane ⟨"/home/u".toList, 5, "", 7, none, 9⟩ ∧
      Char.ofNat 0 ∉ "/home/u".toList ∧ Char.ofNat 0 ∉ "nvme".toList ∧
      is_absolute "nvme".toList = false ∧
      extension ("nvme".toList ++ "_op".toList) = []) ∧
    (c_str (lib_path "/home/u".toList "nvme".toList) =
        spec_module_path "/home/u".toList "nvme".toList ∧
      (has_filename "/home/u".toList = true →
        spec_module_path "/home/u".toList "nvme".toList =
          "/home/u".toList ++ "/deepspeed/ops/plugins/".toList ++ "nvme".toList ++
            "_op.so".toList) ∧
      ∃ r rest, load_device ⟨"/home/u".toList, 5, "", 7, none, 9⟩ "nvme".toList ⟨0, 0, [], []⟩
          = some r ∧
        r.trace = (release_handle (release_device ⟨0, 0, [], []⟩)).trace ++
          Event.dlopen (spec_module_path "/home/u".toList "nvme".toList) 5 :: rest ∧
        ∀ path result, Event.dlopen path result ∉ rest) :=
  ⟨⟨by decide, by decide, by decide, by decide, by decide⟩,
   load_device_opens_spec_path ⟨"/home/u".toList, 5, "", 7, none, 9⟩ "nvme".toList
     ⟨0, 0, [], []⟩ (by decide) (by decide) (by decide) (by decide) (by decide)⟩

/-! ## Sequences of calls -/

theorem live_run_append (l : Live) (a b : List Event) :
    Live.run l (a ++ b) = (Live.run l a).bind (fun l1 => Live.run l1 b) := by
  induction a generalizing l with
  | nil => simp [Live.run]
  | cons e es ih =>
    simp only [List.cons_append, Live.run]
    cases l.step e with
    | none => simp
    | some l1 => simpa using ih l1

theorem destruct_eq (t : Trampoline) :
    destruct t = (release_handle (release_device t)).trace := by
  unfold destruct release_handle release_device
  by_cases hd : t.device = 0 <;> by_cases hh : t.handle = 0 <;> simp [hd, hh]

theorem release_live (t : Trampoline) (ht : t.tracked) :
    Live.run ⟨none, none⟩ (release_handle (release_device t)).trace = some ⟨none, none⟩ := by
  obtain ⟨hrun, himp⟩ := ht
  unfold release_handle release_device
  by_cases hd : t.device = 0
  · by_cases hh : t.handle = 0
    · simpa [hd, hh, Trampoline.live] using hrun
    · simp [hd, hh, live_run_append, hrun, Trampoline.live, Live.run, Live.step]
  · have hh := himp hd
    simp [hd, hh, live_run_append, hrun, Trampoline.live, Live.run, Live.step]

theorem load_device_tracked (env : Env) (device_type : Str) (t r : Trampoline)
    (ht : t.tracked) (hr : load_device env device_type t = some r) : r.tracked := by
  have hrel := release_live t ht
  by_cases ho : env.dlopen_result = 0
  · rw [load_device_open_fails env device_type t ho] at hr
    cases hr
    simp [Trampoline.tracked, Trampoline.live, live_run_append, hrel, Live.run, Live.step]
  · cases he : env.dlsym_error with
    | some err =>
      rw [load_device_symbol_fails env device_type t ho err he] at hr
      cases hr
      simp [Trampoline.tracked, Trampoline.live, live_run_append, hrel, Live.run, Live.step, ho]
    | none =>
      by_cases hp : env.dlsym_result = 0
      · unfold load_device at hr
        simp [ho, he, hp] at hr
      · rw [load_device_factory_called env device_type t ho he hp] at hr
        cases hr
        by_cases hc : env.create_device_result = 0 <;>
        simp [Trampoline.tracked, Trampoline.live, live_run_append, hrel, Live.run, Live.step,
          ho, hc]

theorem load_device_provenance (env : Env) (device_type : Str) (t r : Trampoline)
    (hr : load_device env device_type t = some r) : r.provenance := by
  by_cases ho : env.dlopen_result = 0
  · rw [load_device_open_fails env device_type t ho] at hr
    cases hr
    intro hd
    exact absurd rfl hd
  · cases he : env.dlsym_error with
    | some err =>
      rw [load_device_symbol_fails env device_type t ho err he] at hr
      cases hr
      intro hd
      exact absurd rfl hd
    | none =>
      by_cases hp : env.dlsym_result = 0
      · unfold load_device at hr
        simp [ho, he, hp] at hr
      · rw [load_device_factory_called env device_type t ho he hp] at hr
        cases hr
        intro _
        exact ⟨ho, _, _, rfl⟩

theorem load_device_total (env : Env) (device_type : Str) (t : Trampoline) (hs : env.sane) :
    ∃ r, load_device env device_type t = some r := by
  obtain ⟨r, _, hr, _⟩ := load_device_trace env device_type t hs
  exact ⟨r, hr⟩

theorem load_devices_tracked (calls : List (Env × Str)) (t : Trampoline)
    (hs : ∀ c ∈ calls, c.1.sane) (ht : t.tracked) (hp : t.provenance) :
    ∃ r, load_devices calls t = some r ∧ r.tracked ∧ r.provenance := by
  induction calls generalizing t with
  | nil => exact ⟨t, rfl, ht, hp⟩
  | cons c cs ih =>
    obtain ⟨env, device_type⟩ := c
    obtain ⟨t1, h1⟩ := load_device_total env device_type t (hs _ (List.mem_cons_self _ _))
    obtain ⟨r, hr, hrt, hrp⟩ := ih t1 (fun c hc => hs c (List.mem_cons_of_mem _ hc))
      (load_device_tracked env device_type t t1 ht h1)
      (load_device_provenance env device_type t t1 h1)
    exact ⟨r, by simp [load_devices, h1, hr], hrt, hrp⟩

theorem session_tracked (env : Env) (device_type : Str) (calls : List (Env × Str))
    (hs : env.sane) (hcs : ∀ c ∈ calls, c.1.sane) :
    ∃ r, session env device_type calls = some r ∧ r.tracked ∧ r.provenance := by
  obtain ⟨t, ht⟩ := load_device_total env device_type ⟨0, 0, [], []⟩ hs
  have htr : t.tracked := load_device_tracked env device_type ⟨0, 0, [], []⟩ t
    (by simp [Trampoline.tracked, Trampoline.live, Live.run]) ht
  obtain ⟨r, hr, hrt, hrp⟩ := load_devices_tracked calls t hcs htr
    (load_device_provenance env device_type _ t ht)
  exact ⟨r, by simp [session, construct, ht, hr], hrt, hrp⟩

theorem live_step_handles (l l1 : Live) (e : Event) (h : Ptr) (hstep : l.step e = some l1) :
    (if h ≠ 0 ∧ e.opens h = true then 1 else 0) + (if l.handle = some h then 1 else 0) =
      (if e.closes h = true then 1 else 0) + (if l1.handle = some h then 1 else 0) := by
  cases e with
  | delete d =>
    simp only [Live.step] at hstep
    split at hstep
    · cases hstep
      simp [Event.opens, Event.closes]
    · cases hstep
  | dlclose c =>
    simp only [Live.step] at hstep
    split at hstep
    · rename_i hc
      cases hstep
      by_cases hch : c = h
      · subst hch
        simp [Event.opens, Event.closes, hc.1]
      · simp [Event.opens, Event.closes, hc.1, hch]
    · cases hstep
  | dlopen path result =>
    simp only [Live.step] at hstep
    split at hstep
    · rename_i hz
      cases hstep
      subst hz
      by_cases hh : h = 0
      · simp [Event.opens, Event.closes, hh]
      · have hne : ¬ (0 = h) := fun e => hh e.symm
        simp [Event.opens, Event.closes, hh, hne]
    · rename_i hz
      split at hstep
      · rename_i hnone
        cases hstep
        by_cases hrh : result = h
        · subst hrh
          simp [Event.opens, Event.closes, hnone, hz]
        · simp [Event.opens, Event.closes, hnone, hrh]
      · cases hstep
  | dlsym c =>
    simp only [Live.step] at hstep
    split at hstep
    · cases hstep
      simp [Event.opens, Event.closes]
    · cases hstep
  | create_device result =>
    simp only [Live.step] at hstep
    split at hstep
    · cases hstep
      simp [Event.opens, Event.closes]
    · split at hstep
      · cases hstep
        simp [Event.opens, Event.closes]
      · cases hstep

theorem live_run_handles (tr : List Event) (l l1 : Live) (h : Ptr)
    (hrun : Live.run l tr = some l1) :
    (if h = 0 then 0 else tr.countP (Event.opens h)) + (if l.handle = some h then 1 else 0) =
      tr.countP (Event.closes h) + (if l1.handle = some h then 1 else 0) := by
  induction tr generalizing l with
  | nil =>
    simp only [Live.run, Option.some.injEq] at hrun
    subst hrun
    simp
  | cons e es ih =>
    simp only [Live.run] at hrun
    cases hstep : l.step e with
    | none => simp [hstep] at hrun
    | some l2 =>
      rw [hstep] at hrun
      have h1 := live_step_handles l l2 e h hstep
      have h2 := ih l2 hrun
      simp only [List.countP_cons]
      by_cases hz : h = 0
      · simp only [hz, if_true, ne_eq, not_true_eq_false, false_and, if_false] at h1 h2 ⊢
        omega
      · simp only [hz, if_false, ne_eq, not_false_eq_true, true_and] at h1 h2 ⊢
        omega

theorem live_step_devices (l l1 : Live) (e : Event) (d : Ptr) (hstep : l.step e = some l1) :
    (if d ≠ 0 ∧ e.creates d = true then 1 else 0) + (if l.device = some d then 1 else 0) =
      (if e.deletes d = true then 1 else 0) + (if l1.device = some d then 1 else 0) := by
  cases e with
  | delete c =>
    simp only [Live.step] at hstep
    split at hstep
    · rename_i hc
      cases hstep
      by_cases hcd : c = d
      · subst hcd
        simp [Event.creates, Event.deletes, hc]
      · simp [Event.creates, Event.deletes, hc, hcd]
    · cases hstep
  | dlclose c =>
    simp only [Live.step] at hstep
    split at hstep
    · cases hstep
      simp [Event.creates, Event.deletes]
    · cases hstep
  | dlopen path result =>
    simp only [Live.step] at hstep
    split at hstep
    · cases hstep
      simp [Event.creates, Event.deletes]
    · split at hstep
      · cases hstep
        simp [Event.creates, Event.deletes]
      · cases hstep
  | dlsym c =>
    simp only [Live.step] at hstep
    split at hstep
    · cases hstep
      simp [Event.creates, Event.deletes]
    · cases hstep
  | create_device result =>
    simp only [Live.step] at hstep
    split at hstep
    · rename_i hz
      cases hstep
      subst hz
      by_cases hd : d = 0
      · simp [Event.creates, Event.deletes, hd]
      · have hne : ¬ (0 = d) := fun e => hd e.symm
        simp [Event.creates, Event.deletes, hd, hne]
    · rename_i hz
      split at hstep
      · rename_i hsome hnone
        cases hstep
        by_cases hrd : result = d
        · subst hrd
          simp [Event.creates, Event.deletes, hnone, hz]
        · simp [Event.creates, Event.deletes, hnone, hrd]
      · cases hstep

theorem live_run_devices (tr : List Event) (l l1 : Live) (d : Ptr)
    (hrun : Live.run l tr = some l1) :
    (if d = 0 then 0 else tr.countP (Event.creates d)) + (if l.device = some d then 1 else 0) =
      tr.countP (Event.deletes d) + (if l1.device = some d then 1 else 0) := by
  induction tr generalizing l with
  | nil =>
    simp only [Live.run, Option.some.injEq] at hrun
    subst hrun
    simp
  | cons e es ih =>
    simp only [Live.run] at hrun
    cases hstep : l.step e with
    | none => simp [hstep] at hrun
    | some l2 =>
      rw [hstep] at hrun
      have h1 := live_step_devices l l2 e d hstep
      have h2 := ih l2 hrun
      simp only [List.countP_cons]
      by_cases hz : d = 0
      · simp only [hz, if_true, ne_eq, not_true_eq_false, false_and, if_false] at h1 h2 ⊢
        omega
      · simp only [hz, if_false, ne_eq, not_false_eq_true, true_and] at h1 h2 ⊢
        omega

theorem destruct_eq_last_calls (t : Trampoline) : destruct t = t.trace ++ t.last_calls := by
  unfold destruct Trampoline.last_calls
  by_cases hd : t.device = 0 <;> by_cases hh : t.handle = 0 <;> simp [hd, hh]

theorem release_countP_opens (t : Trampoline) (h : Ptr) :
    (release_handle (release_device t)).trace.countP (Event.opens h) =
      t.trace.countP (Event.opens h) := by
  unfold release_handle release_device
  by_cases hd : t.device = 0 <;> by_cases hh : t.handle = 0 <;>
  simp [hd, hh, List.countP_append, List.countP_cons, Event.opens]

theorem release_countP_creates (t : Trampoline) (d : Ptr) :
    (release_handle (release_device t)).trace.countP (Event.creates d) =
      t.trace.countP (Event.creates d) := by
  unfold release_handle release_device
  by_cases hd : t.device = 0 <;> by_cases hh : t.handle = 0 <;>
  simp [hd, hh, List.countP_append, List.countP_cons, Event.creates]

theorem load_device_countP (env : Env) (device_type : Str) (t r : Trampoline) (x : Ptr)
    (hr : load_device env device_type t = some r) :
    r.trace.countP (Event.opens x) =
        t.trace.countP (Event.opens x) + (if env.opens x = true then 1 else 0) ∧
      r.trace.countP (Event.creates x) =
        t.trace.countP (Event.creates x) + (if env.creates x = true then 1 else 0) := by
  by_cases ho : env.dlopen_result = 0
  · rw [load_device_open_fails env device_type t ho] at hr
    cases hr
    simp [List.countP_append, List.countP_cons, release_countP_opens, release_countP_creates,
      Event.opens, Event.creates, Env.opens, Env.creates, ho]
  · cases he : env.dlsym_error with
    | some err =>
      rw [load_device_symbol_fails env device_type t ho err he] at hr
      cases hr
      simp [List.countP_append, List.countP_cons, release_countP_opens,
        release_countP_creates, Event.opens, Event.creates, Env.opens, Env.creates, ho, he]
    | none =>
      by_cases hp : env.dlsym_result = 0
      · unfold load_device at hr
        simp [ho, he, hp] at hr
      · rw [load_device_factory_called env device_type t ho he hp] at hr
        cases hr
        simp [List.countP_append, List.countP_cons, release_countP_opens,
          release_countP_creates, Event.opens, Event.creates, Env.opens, Env.creates, ho, he]

theorem load_devices_countP (calls : List (Env × Str)) (t r : Trampoline) (x : Ptr)
    (hr : load_devices calls t = some r) :
    r.trace.countP (Event.opens x) =
        t.trace.countP (Event.opens x) + (calls.map Prod.fst).countP (Env.opens x) ∧
      r.trace.countP (Event.creates x) =
        t.trace.countP (Event.creates x) + (calls.map Prod.fst).countP (Env.creates x) := by
  induction calls generalizing t with
  | nil =>
    simp only [load_devices, Option.some.injEq] at hr
    subst hr
    simp
  | cons c cs ih =>
    obtain ⟨env, device_type⟩ := c
    simp only [load_devices] at hr
    cases h1 : load_device env device_type t with
    | none => simp [h1] at hr
    | some t1 =>
      rw [h1] at hr
      have hstep := load_device_countP env device_type t t1 x h1
      have hrest := ih t1 hr
      simp only [List.map_cons, List.countP_cons]
      omega

theorem session_countP (env : Env) (device_type : Str) (calls : List (Env × Str))
    (r : Trampoline) (x : Ptr) (hr : session env device_type calls = some r) :
    r.trace.countP (Event.opens x) =
        (env :: calls.map Prod.fst).countP (Env.opens x) ∧
      r.trace.countP (Event.creates x) =
        (env :: calls.map Prod.fst).countP (Env.creates x) := by
  unfold session construct at hr
  cases h1 : load_device env device_type ⟨0, 0, [], []⟩ with
  | none => simp [h1] at hr
  | some t1 =>
    rw [h1] at hr
    have hstep := load_device_countP env device_type _ t1 x h1
    have hrest := load_devices_countP calls t1 r x hr
    simp only [List.countP_nil, Nat.zero_add] at hstep
    simp only [List.countP_cons]
    omega

theorem last_calls_countP (t : Trampoline) (x : Ptr) :
    t.last_calls.countP (Event.opens x) = 0 ∧ t.last_calls.countP (Event.creates x) = 0 := by
  unfold Trampoline.last_calls
  by_cases hd : t.device = 0 <;> by_cases hh : t.handle = 0 <;>
  simp [hd, hh, List.countP_cons, Event.opens, Event.creates]

/-- C6: over the whole life of a trampoline (construction, any finite sequence
of `load_device` calls with any outcomes, destruction) the calls made are those
recorded by the session followed by the `delete` and `dlclose` of the
destructor, and they contain one `dlopen` result per handle the platform handed
out and one factory result per instance a factory returned. These calls keep
the ownership discipline of `Live.step` and end with nothing alive. So a module
is opened only when no handle is open and an instance is created only when none
is alive; a handle is closed only when it is the open one and no instance is
alive, hence after the instance created from it was deleted; every handle is
closed as many times as it was opened and every instance deleted as many times
as it was created, and a null pointer is never closed nor deleted. -/
theorem lifetime_releases_everything (env : Env) (device_type : Str)
    (calls : List (Env × Str)) (hs : env.sane) (hcs : ∀ c ∈ calls, c.1.sane) :
    ∃ t tr, session env device_type calls = some t ∧
      lifetime env device_type calls = some tr ∧
      tr = t.trace ++ t.last_calls ∧
      (∀ h, tr.countP (Event.opens h) = (env :: calls.map Prod.fst).countP (Env.opens h)) ∧
      (∀ d, tr.countP (Event.creates d) =
        (env :: calls.map Prod.fst).countP (Env.creates d)) ∧
      Live.run ⟨none, none⟩ tr = some ⟨none, none⟩ ∧
      (∀ h, h ≠ 0 → tr.countP (Event.closes h) = tr.countP (Event.opens h)) ∧
      (∀ d, d ≠ 0 → tr.countP (Event.deletes d) = tr.countP (Event.creates d)) ∧
      tr.countP (Event.closes 0) = 0 ∧ tr.countP (Event.deletes 0) = 0 := by
  obtain ⟨t, ht, htr, _⟩ := session_tracked env device_type calls hs hcs
  have hrun : Live.run ⟨none, none⟩ (destruct t) = some ⟨none, none⟩ := by
    rw [destruct_eq]
    exact release_live t htr
  refine ⟨t, destruct t, ht, by simp [lifetime, ht], destruct_eq_last_calls t, ?_, ?_, hrun,
    ?_, ?_, ?_, ?_⟩
  · intro h
    rw [destruct_eq_last_calls, List.countP_append, (last_calls_countP t h).1,
      (session_countP env device_type calls t h ht).1]
    rfl
  · intro d
    rw [destruct_eq_last_calls, List.countP_append, (last_calls_countP t d).2,
      (session_countP env device_type calls t d ht).2]
    rfl
  · intro h hh
    have := live_run_handles (destruct t) _ _ h hrun
    simp only [hh, if_false, reduceCtorEq] at this
    omega
  · intro d hd
    have := live_run_devices (destruct t) _ _ d hrun
    simp only [hd, if_false, reduceCtorEq] at this
    omega
  · have := live_run_handles (destruct t) _ _ 0 hrun
    simp only [if_true, reduceCtorEq, if_false] at this
    omega
  · have := live_run_devices (destruct t) _ _ 0 hrun
    simp only [if_true, reduceCtorEq, if_false] at this
    omega

/-- Witness of `lifetime_releases_everything`: a successful construction followed
by a reload of each outcome (module missing, symbol missing, null instance,
success). -/
theorem lifetime_releases_everything_witness :
    (Env.sane ⟨[], 5, "", 7, none, 9⟩ ∧
      ∀ c ∈ ([(⟨[], 0, "no such file", 0, none, 0⟩, "gds".toList),
        (⟨[], 6, "", 0, some "undefined symbol", 0⟩, "xpu".toList),
        (⟨[], 8, "", 7, none, 0⟩, "npu".toList),
        (⟨[], 5, "", 7, none, 11⟩, "nvme".toList)] : List (Env × Str)), c.1.sane) ∧
    ∃ t tr, session ⟨[], 5, "", 7, none, 9⟩ "nvme".toList
        [(⟨[], 0, "no such file", 0, none, 0⟩, "gds".toList),
        (⟨[], 6, "", 0, some "undefined symbol", 0⟩, "xpu".toList),
        (⟨[], 8, "", 7, none, 0⟩, "npu".toList),
        (⟨[], 5, "", 7, none, 11⟩, "nvme".toList)] = some t ∧
      lifetime ⟨[], 5, "", 7, none, 9⟩ "nvme".toList
        [(⟨[], 0, "no such file", 0, none, 0⟩, "gds".toList),
        (⟨[], 6, "", 0, some "undefined symbol", 0⟩, "xpu".toList),
        (⟨[], 8, "", 7, none, 0⟩, "npu".toList),
        (⟨[], 5, "", 7, none, 11⟩, "nvme".toList)] = some tr ∧
      tr = t.trace ++ t.last_calls ∧
      (∀ h, tr.countP (Event.opens h) =
        ((⟨[], 5, "", 7, none, 9⟩ : Env) ::
          ([(⟨[], 0, "no such file", 0, none, 0⟩, "gds".toList),
        (⟨[], 6, "", 0, some "undefined symbol", 0⟩, "xpu".toList),
        (⟨[], 8, "", 7, none, 0⟩, "npu".toList),
        (⟨[], 5, "", 7, none, 11⟩, "nvme".toList)] : List (Env × Str)).map Prod.fst).countP (Env.opens h)) ∧
      (∀ d, tr.countP (Event.creates d) =
        ((⟨[], 5, "", 7, none, 9⟩ : Env) ::
          ([(⟨[], 0, "no such file", 0, none, 0⟩, "gds".toList),
        (⟨[], 6, "", 0, some "undefined symbol", 0⟩, "xpu".toList),
        (⟨[], 8, "", 7, none, 0⟩, "npu".toList),
        (⟨[], 5, "", 7, none, 11⟩, "nvme".toList)] : List (Env × Str)).map Prod.fst).countP (Env.creates d)) ∧
      Live.run ⟨none, none⟩ tr = some ⟨none, none⟩ ∧
      (∀ h, h ≠ 0 → tr.countP (Event.closes h) = tr.countP (Event.opens h)) ∧
      (∀ d, d ≠ 0 → tr.countP (Event.deletes d) = tr.countP (Event.creates d)) ∧
      tr.countP (Event.closes 0) = 0 ∧ tr.countP (Event.deletes 0) = 0 :=
  ⟨⟨by decide, by decide⟩,
   lifetime_releases_everything ⟨[], 5, "", 7, none, 9⟩ "nvme".toList
     [(⟨[], 0, "no such file", 0, none, 0⟩, "gds".toList),
        (⟨[], 6, "", 0, some "undefined symbol", 0⟩, "xpu".toList),
        (⟨[], 8, "", 7, none, 0⟩, "npu".toList),
        (⟨[], 5, "", 7, none, 11⟩, "nvme".toList)] (by decide) (by decide)⟩

/-- C10: in every state reached from construction by a sequence of `load_device`
calls with any outcomes, a non-null engine instance comes with a non-null module
handle, and the last calls made are the `dlopen` that returned this handle, the
`dlsym` on it and the factory call that returned this instance. The converse is
not an invariant: after a construction whose factory returns a null instance the
trampoline holds a handle and no instance. -/
theorem session_instance_has_its_module (env : Env) (device_type : Str)
    (calls : List (Env × Str)) (hs : env.sane) (hcs : ∀ c ∈ calls, c.1.sane) :
    (∃ t, session env device_type calls = some t ∧
      (t.device ≠ 0 → t.handle ≠ 0 ∧
        ∃ pre path, t.trace = pre ++ [Event.dlopen path t.handle, Event.dlsym t.handle,
          Event.create_device t.device])) ∧
    (∃ (env2 : Env) (device_type2 : Str) (t2 : Trampoline), env2.sane ∧
      session env2 device_type2 [] = some t2 ∧ t2.handle ≠ 0 ∧ t2.device = 0) := by
  obtain ⟨t, ht, _, hp⟩ := session_tracked env device_type calls hs hcs
  refine ⟨⟨t, ht, hp⟩, ⟨[], 5, "", 7, none, 0⟩, "nvme".toList, ?_, by decide, ?_, ?_, ?_⟩
  · exact ⟨0, 5, [Event.dlopen "deepspeed/ops/plugins/nvme_op.so".toList 5, Event.dlsym 5,
      Event.create_device 0], []⟩
  · decide
  · decide
  · rfl

/-- Witness of `session_instance_has_its_module`: a successful construction
followed by a reload of each outcome. -/
theorem session_instance_has_its_module_witness :
    (Env.sane ⟨[], 5, "", 7, none, 9⟩ ∧
      ∀ c ∈ ([(⟨[], 0, "no such file", 0, none, 0⟩, "gds".toList),
        (⟨[], 6, "", 0, some "undefined symbol", 0⟩, "xpu".toList),
        (⟨[], 8, "", 7, none, 0⟩, "npu".toList),
        (⟨[], 5, "", 7, none, 11⟩, "nvme".toList)] : List (Env × Str)), c.1.sane) ∧
    ((∃ t, session ⟨[], 5, "", 7, none, 9⟩ "nvme".toList
        [(⟨[], 0, "no such file", 0, none, 0⟩, "gds".toList),
        (⟨[], 6, "", 0, some "undefined symbol", 0⟩, "xpu".toList),
        (⟨[], 8, "", 7, none, 0⟩, "npu".toList),
        (⟨[], 5, "", 7, none, 11⟩, "nvme".toList)] = some t ∧
      (t.device ≠ 0 → t.handle ≠ 0 ∧
        ∃ pre path, t.trace = pre ++ [Event.dlopen path t.handle, Event.dlsym t.handle,
          Event.create_device t.device])) ∧
    (∃ (env2 : Env) (device_type2 : Str) (t2 : Trampoline), env2.sane ∧
      session env2 device_type2 [] = some t2 ∧ t2.handle ≠ 0 ∧ t2.device = 0)) :=
  ⟨⟨by decide, by decide⟩,
   session_instance_has_its_module ⟨[], 5, "", 7, none, 9⟩ "nvme".toList
     [(⟨[], 0, "no such file", 0, none, 0⟩, "gds".toList),
        (⟨[], 6, "", 0, some "undefined symbol", 0⟩, "xpu".toList),
        (⟨[], 8, "", 7, none, 0⟩, "npu".toList),
        (⟨[], 5, "", 7, none, 11⟩, "nvme".toList)] (by decide) (by decide)⟩

end AioTrampoline
